import Mathlib

/-!
Verification of the message synchronization and local-cache logic of the
chat application, as implemented by the `Chat` component
(`src/unnamed/part_003`).  The component keeps a list `messages` of chat
messages (newest first), reacts to four external events, and issues
Firestore writes (`addDoc`) which we record in an `outbox`:

* `onSend` (lines 271-343): builds a message from `messageData` and the
  input text; when connected it only writes to Firestore (plus a delayed
  chat-bot reply for text sends), when offline it prepends a local copy
  with `_id = Date.now().toString()`, `createdAt = new Date()` and the
  inherited status `sent`.
* the `onSnapshot` callback (lines 112-134): maps the delivered snapshot
  document-by-document and replaces the whole `messages` state with it.
* `addReaction` (lines 253-265): appends a `(reaction, userId)` entry to
  the matching message's `reactions` array.
* `loadCachedMessages` (lines 69-85): when disconnected, seeds `messages`
  from the persisted AsyncStorage snapshot; the Firestore subscription
  effect (lines 93-141) is only installed when `isConnected`.

Machine integers do not occur; timestamps are modelled as natural-number
milliseconds.  The fields `tag` on messages, written documents and
snapshot documents are verification ghost data giving each logical
message (each user send action, each bot reply) an identity; they carry
no program information and no operation branches on them.
-/

namespace ChatApp

/-- A geographic coordinate pair (the `location` payload). -/
structure Loc where
  latitude : Int
  longitude : Int
deriving DecidableEq

/-- The user object attached to cached messages
(`{_id, name, avatar}` in the source; `uid` stands for `_id`). -/
structure User where
  uid : String
  name : String
  avatar : Option String
deriving DecidableEq

/-- One entry of a message's `reactions` array: `{reaction, userId}`. -/
structure ReactionEntry where
  reaction : String
  userId : String
deriving DecidableEq

/-- A cached message as held in the component's `messages` state.
`none` models an absent (`undefined`/`null`) field; `tag` is ghost. -/
structure Msg where
  id : String
  text : Option String
  image : Option String
  location : Option Loc
  createdAt : Nat
  user : User
  status : String
  reactions : Option (List ReactionEntry)
  tag : Option Nat
deriving DecidableEq

/-- A document handed to `addDoc(collection(db,'messages'), ...)`.
Its `createdAt` is always the `serverTimestamp()` sentinel, hence not a
field here; `status` is recorded as written.  `tag` is ghost. -/
structure WriteDoc where
  text : Option String
  image : Option String
  location : Option Loc
  user : User
  status : String
  tag : Nat
deriving DecidableEq

/-- The `user` object of a raw Firestore document, with the optional
`_id` (here `idPrimary`) and `id` (here `idAlt`) variants the mapper
probes (`data.user?._id || data.user?.id`). -/
structure SUser where
  idPrimary : Option String
  idAlt : Option String
  name : Option String
  avatar : Option String
deriving DecidableEq

/-- A document of a delivered Firestore snapshot: `doc.id` plus
`doc.data()`.  `createdAt = none` models an unresolved
`serverTimestamp()` (falsy `data.createdAt`).  `tag` is ghost: the
write this document stores. -/
structure SDoc where
  id : String
  text : Option String
  image : Option String
  location : Option Loc
  createdAt : Option Nat
  user : Option SUser
  status : Option String
  tag : Nat
deriving DecidableEq

/-- The persisted AsyncStorage value parsed by `loadCachedMessages`:
`{messages, currentUser}` (the `currentUser` field is parsed and
unused). -/
structure Persisted where
  messages : List Msg
  currentUser : User
deriving DecidableEq

/-- The component state: the `messages` React state, the sequence of
Firestore writes issued so far (`outbox`), and whether the `onSnapshot`
subscription is installed. -/
structure ChatState where
  messages : List Msg
  outbox : List WriteDoc
  subscribed : Bool
deriving DecidableEq

/-- JavaScript truthiness of an optional string: absent and `""` are
falsy. -/
def truthyS : Option String → Bool
  | some s => s != ""
  | none => false

/-- `x || d` for a string default, as in `data.text || ''`. -/
def jsOrStr : Option String → String → String
  | some s, d => if s = "" then d else s
  | none, d => d

/-- `x || null` for an optional string, as in `data.image || null`. -/
def jsOrNull : Option String → Option String
  | some s => if s = "" then none else some s
  | none => none

/-- The arguments of one `onSend(messageData)` call: the
`messageData.location` and `messageData.image` fields plus the
component's `inputText` state. -/
structure SendInput where
  location : Option Loc
  image : Option String
  inputText : String
deriving DecidableEq

/-- The payload triple selected by `onSend`'s branch chain
(`if (messageData.location) ... else if (messageData.image) ... else ...`).
`none` means the text branch hit the `if (!inputText.trim()) return`
early exit. -/
structure BuiltPayload where
  text : Option String
  image : Option String
  location : Option Loc
deriving DecidableEq

/-- Whitespace for the purposes of `inputText.trim()`. -/
def isWS (c : Char) : Bool :=
  c = ' ' || c = '\t' || c = '\n' || c = '\r'

/-- Drop leading whitespace characters. -/
def dropLeadingWS : List Char → List Char
  | [] => []
  | c :: cs => if isWS c then dropLeadingWS cs else c :: cs

/-- `inputText.trim()`: strip leading and trailing whitespace (modelled
by a structurally recursive function so that it evaluates). -/
def jsTrim (s : String) : String :=
  String.mk ((dropLeadingWS (dropLeadingWS s.data).reverse).reverse)

/-- The payload dispatch of `onSend` (lines 282-304). -/
def buildNewMessage (inp : SendInput) : Option BuiltPayload :=
  if inp.location.isSome then
    some { text := none, image := none, location := inp.location }
  else if truthyS inp.image then
    some { text := none, image := inp.image, location := none }
  else if jsTrim inp.inputText = "" then
    none
  else
    some { text := some (jsTrim inp.inputText), image := none, location := none }

/-- The `currentUser` object `onSend` builds from the route params. -/
def mkUser (uid uname : String) : User :=
  { uid := uid, name := uname, avatar := none }

/-- The chat-bot reply texts (`AUTO_REPLIES`). -/
def AUTO_REPLIES : List String :=
  [ "That\x27s interesting! Tell me more."
  , "I see what you mean!"
  , "Thanks for sharing!"
  , "How do you feel about that?"
  , "Really? That\x27s fascinating!"
  , "I agree with you!" ]

/-- `AUTO_REPLIES[Math.floor(Math.random() * AUTO_REPLIES.length)]`; the
random draw is modelled by the environment-chosen index `bidx`. -/
def botReplyText (bidx : Nat) : String :=
  AUTO_REPLIES.getD (bidx % AUTO_REPLIES.length) ""

/-- The document written for the user's message in the connected branch
of `onSend`. -/
def mkWrite (uid uname : String) (b : BuiltPayload) (tg : Nat) : WriteDoc :=
  { text := b.text, image := b.image, location := b.location
  , user := mkUser uid uname, status := "sent", tag := tg }

/-- The delayed chat-bot document (`botMessage`, lines 313-323). -/
def botWrite (btg bidx : Nat) : WriteDoc :=
  { text := some (botReplyText bidx), image := none, location := none
  , user := { uid := "chatbot", name := "Chat Bot", avatar := none }
  , status := "sent", tag := btg }

/-- `!messageData.location && !messageData.image`: the guard for the
bot reply (line 311). -/
def botFollows (inp : SendInput) : Bool :=
  !inp.location.isSome && !truthyS inp.image

/-- The `offlineMessage` of the disconnected branch (lines 327-331):
the built message spread together with `_id = Date.now().toString()`
and `createdAt = new Date()`; its status stays `sent`. -/
def offlineMessage (uid uname : String) (b : BuiltPayload) (now tg : Nat) : Msg :=
  { id := toString now, text := b.text, image := b.image
  , location := b.location, createdAt := now, user := mkUser uid uname
  , status := "sent", reactions := none, tag := some tg }

/-- `onSend` (lines 271-343).  `now` is `Date.now()` in milliseconds,
`tg`/`btg` are the ghost identities of the user message and the bot
reply, `bidx` the bot's random index. -/
def onSend (uid uname : String) (isConnected : Bool) (inp : SendInput)
    (now tg btg bidx : Nat) (s : ChatState) : ChatState :=
  match buildNewMessage inp with
  | none => s
  | some b =>
    if isConnected then
      { s with outbox := s.outbox ++
          mkWrite uid uname b tg ::
            (if botFollows inp then [botWrite btg bidx] else []) }
    else
      { s with messages := offlineMessage uid uname b now tg :: s.messages }

/-- The user object produced by the snapshot mapper (lines 122-126). -/
def mapUser (u : Option SUser) : User :=
  { uid := jsOrStr (u.bind SUser.idPrimary) (jsOrStr (u.bind SUser.idAlt) "unknown")
  , name := jsOrStr (u.bind SUser.name) "Unknown"
  , avatar := jsOrNull (u.bind SUser.avatar) }

/-- The per-document mapper of the `onSnapshot` callback
(lines 113-131).  `now` is the clock used by the
`data.createdAt ? ... : new Date()` fallback.  Note that the mapper
sets no `reactions` field. -/
def mapDoc (now : Nat) (d : SDoc) : Msg :=
  { id := d.id
  , text := some (jsOrStr d.text "")
  , image := jsOrNull d.image
  , location := d.location
  , createdAt := d.createdAt.getD now
  , user := mapUser d.user
  , status := jsOrStr d.status "sent"
  , reactions := none
  , tag := some d.tag }

/-- `snapshot.docs.map(...)`. -/
def mapSnap (now : Nat) (snap : List SDoc) : List Msg :=
  snap.map (mapDoc now)

/-- The `onSnapshot` callback (lines 112-134): the mapped snapshot
replaces the whole `messages` state (`setMessages(newMessages)`). -/
def onSnapshotUpdate (snap : List SDoc) (now : Nat) (s : ChatState) : ChatState :=
  { s with messages := mapSnap now snap }

/-- `addReaction` (lines 253-265); `uid` is the component user's `_id`. -/
def addReaction (uid : String) (messageId emoji : String) (s : ChatState) : ChatState :=
  { s with messages := s.messages.map (fun msg =>
      if msg.id = messageId then
        { msg with reactions := some ((msg.reactions.getD []) ++
            [{ reaction := emoji, userId := uid }]) }
      else msg) }

/-- `loadCachedMessages` (lines 69-85): `if (cached)` guards the load;
on success `setMessages(cachedMessages)`. -/
def loadCachedMessages (cached : Option Persisted) (s : ChatState) : ChatState :=
  match cached with
  | none => s
  | some pr => { s with messages := pr.messages }

/-- The component state directly after mount: when connected the
snapshot subscription is installed (lines 106-135) and the cached-load
effect does nothing; when disconnected no subscription is installed and
`loadCachedMessages` runs (lines 82-84). -/
def initialState (isConnected : Bool) (cached : Option Persisted) : ChatState :=
  if isConnected then
    { messages := [], outbox := [], subscribed := true }
  else
    loadCachedMessages cached { messages := [], outbox := [], subscribed := false }

/-- The empty cache with the live subscription installed. -/
def emptyCache : ChatState :=
  { messages := [], outbox := [], subscribed := true }

/-- One external event of the component. -/
inductive Op where
  | send (online : Bool) (inp : SendInput) (now tg btg bidx : Nat)
  | feed (snap : List SDoc) (now : Nat)
  | react (messageId emoji : String)
  | load (cached : Option Persisted)
deriving DecidableEq

/-- Dispatch one event. -/
def step (uid uname : String) (s : ChatState) : Op → ChatState
  | .send online inp now tg btg bidx => onSend uid uname online inp now tg btg bidx s
  | .feed snap now => onSnapshotUpdate snap now s
  | .react messageId emoji => addReaction uid messageId emoji s
  | .load cached => loadCachedMessages cached s

/-- Run a sequence of events. -/
def run (uid uname : String) : ChatState → List Op → ChatState
  | s, [] => s
  | s, op :: ops => run uid uname (step uid uname s op) ops

/-! ### Basic lemmas about the operations -/

lemma onSend_online_messages (uid uname : String) (inp : SendInput)
    (now tg btg bidx : Nat) (s : ChatState) :
    (onSend uid uname true inp now tg btg bidx s).messages = s.messages := by
  unfold onSend
  cases h : buildNewMessage inp <;> simp

lemma onSend_offline_outbox (uid uname : String) (inp : SendInput)
    (now tg btg bidx : Nat) (s : ChatState) :
    (onSend uid uname false inp now tg btg bidx s).outbox = s.outbox := by
  unfold onSend
  cases h : buildNewMessage inp <;> simp

lemma onSend_build_none (uid uname : String) (online : Bool) (inp : SendInput)
    (now tg btg bidx : Nat) (s : ChatState) (h : buildNewMessage inp = none) :
    onSend uid uname online inp now tg btg bidx s = s := by
  unfold onSend
  rw [h]

lemma onSend_offline_messages (uid uname : String) (inp : SendInput)
    (now tg btg bidx : Nat) (s : ChatState) (b : BuiltPayload)
    (h : buildNewMessage inp = some b) :
    (onSend uid uname false inp now tg btg bidx s).messages =
      offlineMessage uid uname b now tg :: s.messages := by
  unfold onSend
  rw [h]
  simp

lemma onSend_online_outbox (uid uname : String) (inp : SendInput)
    (now tg btg bidx : Nat) (s : ChatState) (b : BuiltPayload)
    (h : buildNewMessage inp = some b) :
    (onSend uid uname true inp now tg btg bidx s).outbox =
      s.outbox ++ mkWrite uid uname b tg ::
        (if botFollows inp then [botWrite btg bidx] else []) := by
  unfold onSend
  rw [h]
  simp

lemma onSnapshotUpdate_outbox (snap : List SDoc) (now : Nat) (s : ChatState) :
    (onSnapshotUpdate snap now s).outbox = s.outbox := rfl

lemma addReaction_outbox (uid messageId emoji : String) (s : ChatState) :
    (addReaction uid messageId emoji s).outbox = s.outbox := rfl

lemma loadCachedMessages_outbox (cached : Option Persisted) (s : ChatState) :
    (loadCachedMessages cached s).outbox = s.outbox := by
  cases cached <;> rfl

lemma mapDoc_time_indep (t1 t2 : Nat) (d : SDoc) (h : d.createdAt.isSome) :
    mapDoc t2 d = mapDoc t1 d := by
  cases hd : d.createdAt with
  | none => rw [hd] at h; simp at h
  | some v => simp [mapDoc, hd]

lemma mapSnap_time_indep (t1 t2 : Nat) (snap : List SDoc)
    (h : ∀ d ∈ snap, d.createdAt.isSome) : mapSnap t2 snap = mapSnap t1 snap := by
  unfold mapSnap
  exact List.map_congr_left (fun d hd => mapDoc_time_indep t1 t2 d (h d hd))

/-! ### Claim C4: snapshot redelivery is idempotent -/

/-- C4: for every cache state and every server snapshot (whose documents
carry resolved backend timestamps, as server-confirmed messages do),
delivering the snapshot twice in a row yields a state identical to
delivering it once, whatever the clock reads at the two deliveries. -/
theorem snapshot_redelivery_idempotent (s : ChatState) (snap : List SDoc) (t1 t2 : Nat)
    (h : ∀ d ∈ snap, d.createdAt.isSome) :
    onSnapshotUpdate snap t2 (onSnapshotUpdate snap t1 s) = onSnapshotUpdate snap t1 s := by
  unfold onSnapshotUpdate
  rw [mapSnap_time_indep t1 t2 snap h]

/-- A concrete server snapshot document used by witnesses. -/
def wDoc : SDoc :=
  { id := "srv1", text := some "hi", image := none, location := none
  , createdAt := some 150
  , user := some { idPrimary := some "u1", idAlt := none, name := some "Ann", avatar := none }
  , status := some "sent", tag := 0 }

/-- Witness for C4 at a concrete snapshot and two distinct delivery
times. -/
theorem snapshot_redelivery_idempotent_witness :
    (∀ d ∈ [wDoc], d.createdAt.isSome) ∧
    onSnapshotUpdate [wDoc] 300 (onSnapshotUpdate [wDoc] 200 emptyCache) =
      onSnapshotUpdate [wDoc] 200 emptyCache :=
  ⟨by decide, snapshot_redelivery_idempotent emptyCache [wDoc] 200 300 (by decide)⟩

/-! ### Claim C7: offline startup seeds the cache, no subscription -/

/-- C7: initializing while disconnected with a persisted snapshot in
durable storage seeds `messages` with exactly the persisted messages,
and installs no remote subscription. -/
theorem offline_startup_seeds_from_snapshot (pr : Persisted) :
    (initialState false (some pr)).messages = pr.messages ∧
    (initialState false (some pr)).subscribed = false := by
  exact ⟨rfl, rfl⟩

/-! ### Claim C10: a feed delivery depends only on the snapshot -/

/-- C10: the `messages` state produced by a snapshot delivery depends
only on the delivered snapshot (and the delivery-time clock): any two
prior cache states, including ones holding unconfirmed local messages
or locally added reactions, yield identical results. -/
theorem feed_result_independent_of_prior_state (snap : List SDoc) (t : Nat)
    (s1 s2 : ChatState) :
    (onSnapshotUpdate snap t s1).messages = (onSnapshotUpdate snap t s2).messages := rfl

/-! ### Claim C3: there is no reconciliation window -/

/-- A local message in `pending` status, as the claim posits. -/
def pendingLocalMsg : Msg :=
  { id := "tmp1", text := some "hi", image := none, location := none
  , createdAt := 100, user := { uid := "u1", name := "Ann", avatar := none }
  , status := "pending", reactions := none, tag := some 7 }

/-- A cache holding exactly that pending local message. -/
def statePending : ChatState :=
  { messages := [pendingLocalMsg], outbox := [], subscribed := true }

/-- C3 counterexample: the claim says a local pending message with no
matching server message in the delivered snapshot remains in the cache
with status `pending`; delivering an empty snapshot to a cache holding
one pending message instead leaves the cache empty — the handler
performs no matching at all. -/
theorem pending_message_not_retained_cex :
    statePending.messages = [pendingLocalMsg] ∧
    pendingLocalMsg.status = "pending" ∧
    (onSnapshotUpdate [] 200 statePending).messages = [] :=
  ⟨rfl, rfl, rfl⟩

/-- C3 amended: `onRemoteFeedUpdate` performs no timestamp-window
matching whatsoever — it unconditionally replaces the entire cache with
the mapped server snapshot, so no local message (pending or otherwise)
survives a delivery. -/
theorem feed_replaces_with_mapped_snapshot (snap : List SDoc) (t : Nat) (s : ChatState) :
    (onSnapshotUpdate snap t s).messages = mapSnap t snap := rfl

/-! ### Claim C2: online send performs no optimistic update -/

/-- The send input of scenario B: a plain text draft. -/
def hiSendInput : SendInput := { location := none, image := none, inputText := "hi" }

/-- The payload `onSend` builds from `hiSendInput`. -/
def hiPayload : BuiltPayload := { text := some "hi", image := none, location := none }

/-- C2 counterexample: the claim says an online `send` prepends a
pending message to `orderedMessages` immediately; sending the text
"hi" online from the empty cache leaves `messages` empty (the remote
write is issued, but nothing is prepended locally). -/
theorem online_send_not_optimistic_cex :
    (onSend "u1" "Ann" true hiSendInput 1000 0 1 0 emptyCache).messages = [] ∧
    (onSend "u1" "Ann" true hiSendInput 1000 0 1 0 emptyCache).outbox.length = 2 := by
  exact ⟨by decide, by decide⟩

/-- C2 amended: an online `send` leaves `orderedMessages` unchanged —
there is no optimistic update and no `pending` entry; it only issues
the remote write of the draft (with status `sent`, plus the delayed
bot reply for text drafts), and an empty text draft is a complete
no-op. -/
theorem online_send_leaves_cache_unchanged (uid uname : String) (inp : SendInput)
    (now tg btg bidx : Nat) (s : ChatState) :
    (onSend uid uname true inp now tg btg bidx s).messages = s.messages ∧
    (buildNewMessage inp = none →
      (onSend uid uname true inp now tg btg bidx s).outbox = s.outbox) ∧
    (∀ b, buildNewMessage inp = some b →
      (onSend uid uname true inp now tg btg bidx s).outbox =
        s.outbox ++ mkWrite uid uname b tg ::
          (if botFollows inp then [botWrite btg bidx] else []) ∧
      (mkWrite uid uname b tg).status = "sent") := by
  refine ⟨onSend_online_messages uid uname inp now tg btg bidx s, ?_, ?_⟩
  · intro h
    rw [onSend_build_none uid uname true inp now tg btg bidx s h]
  · intro b hb
    exact ⟨onSend_online_outbox uid uname inp now tg btg bidx s b hb, rfl⟩

/-- Witness for C2's amended statement at the concrete scenario-B
draft. -/
theorem online_send_leaves_cache_unchanged_witness :
    buildNewMessage hiSendInput = some hiPayload ∧
    (onSend "u1" "Ann" true hiSendInput 1000 0 1 0 emptyCache).outbox =
      emptyCache.outbox ++ mkWrite "u1" "Ann" hiPayload 0 ::
        (if botFollows hiSendInput then [botWrite 1 0] else []) :=
  ⟨by decide,
    ((online_send_leaves_cache_unchanged "u1" "Ann" hiSendInput 1000 0 1 0
      emptyCache).2.2 hiPayload (by decide)).1⟩

/-! ### Claim C9: addReaction is purely additive -/

lemma addReaction_map_no_match (uid messageId emoji : String) :
    ∀ (l : List Msg), (∀ m ∈ l, m.id ≠ messageId) →
      l.map (fun msg =>
        if msg.id = messageId then
          { msg with reactions := some ((msg.reactions.getD []) ++
              [{ reaction := emoji, userId := uid }]) }
        else msg) = l := by
  intro l
  induction l with
  | nil => intro _; rfl
  | cons m t ih =>
    intro h
    simp only [List.map_cons]
    rw [if_neg (h m (by simp)), ih (fun x hx => h x (by simp [hx]))]

/-- C9: `addReaction(messageId, emoji)` (the reactor being the
component's current user `uid`) leaves the outbox, the subscription,
the number of cached messages, every non-matching message and every
other field of the matching message unchanged; it appends exactly the
one `(emoji, uid)` entry to the matching message's reactions; when no
message carries the id it is a complete no-op; and a repeated call
appends a second identical entry (additive, no deduplication). -/
theorem addReaction_appends_single_pair (uid messageId emoji : String) (s : ChatState) :
    (addReaction uid messageId emoji s).outbox = s.outbox ∧
    (addReaction uid messageId emoji s).subscribed = s.subscribed ∧
    (addReaction uid messageId emoji s).messages.length = s.messages.length ∧
    (∀ (i : Nat) (m : Msg), s.messages[i]? = some m →
      (m.id = messageId →
        (addReaction uid messageId emoji s).messages[i]? =
          some { m with reactions := some ((m.reactions.getD []) ++
            [{ reaction := emoji, userId := uid }]) }) ∧
      (m.id ≠ messageId →
        (addReaction uid messageId emoji s).messages[i]? = some m)) ∧
    ((∀ m ∈ s.messages, m.id ≠ messageId) →
      (addReaction uid messageId emoji s).messages = s.messages) ∧
    (∀ (i : Nat) (m : Msg), s.messages[i]? = some m → m.id = messageId →
      (addReaction uid messageId emoji
        (addReaction uid messageId emoji s)).messages[i]? =
          some { m with reactions := some ((m.reactions.getD []) ++
            [{ reaction := emoji, userId := uid },
             { reaction := emoji, userId := uid }]) }) := by
  refine ⟨rfl, rfl, by simp [addReaction], ?_, ?_, ?_⟩
  · intro i m hm
    constructor
    · intro hid
      simp [addReaction, List.getElem?_map, hm, hid]
    · intro hid
      simp [addReaction, List.getElem?_map, hm, hid]
  · intro h
    exact addReaction_map_no_match uid messageId emoji s.messages h
  · intro i m hm hid
    have hid2 : ({ m with reactions := some ((m.reactions.getD []) ++
        [{ reaction := emoji, userId := uid }]) } : Msg).id = messageId := hid
    simp [addReaction, List.getElem?_map, hm, hid, hid2]

/-- A cache holding the mapped copy of `wDoc`, for the C9 witness. -/
def reactState : ChatState :=
  { messages := [mapDoc 150 wDoc], outbox := [], subscribed := true }

/-- Witness for C9: reacting to the existing message "srv1" appends
exactly one entry. -/
theorem addReaction_appends_single_pair_witness :
    reactState.messages[0]? = some (mapDoc 150 wDoc) ∧
    (mapDoc 150 wDoc).id = "srv1" ∧
    (addReaction "u2" "srv1" "👍" reactState).messages[0]? =
      some { mapDoc 150 wDoc with reactions := some ((((mapDoc 150 wDoc).reactions).getD []) ++
          [{ reaction := "👍", userId := "u2" }]) } :=
  ⟨by decide, by decide,
    ((addReaction_appends_single_pair "u2" "srv1" "👍" reactState).2.2.2.1 0
      (mapDoc 150 wDoc) (by decide)).1 (by decide)⟩

/-! ### Claim C6: offline sends are local-only and never replayed -/

/-- The Firestore writes a single event issues.  This function is
state-independent: what gets written never depends on the cache, so no
queued offline message is ever replayed. -/
def opWrites (uid uname : String) : Op → List WriteDoc
  | .send true inp _ tg btg bidx =>
    match buildNewMessage inp with
    | none => []
    | some b =>
      mkWrite uid uname b tg :: (if botFollows inp then [botWrite btg bidx] else [])
  | _ => []

/-- The ghost identities an event may write under. -/
def opTagList : Op → List Nat
  | .send _ _ _ tg btg _ => [tg, btg]
  | _ => []

/-- The writes of a whole event sequence. -/
def writesOf (uid uname : String) : List Op → List WriteDoc
  | [] => []
  | op :: ops => opWrites uid uname op ++ writesOf uid uname ops

lemma step_outbox (uid uname : String) (s : ChatState) (op : Op) :
    (step uid uname s op).outbox = s.outbox ++ opWrites uid uname op := by
  cases op with
  | send online inp now tg btg bidx =>
    cases online with
    | true =>
      show (onSend uid uname true inp now tg btg bidx s).outbox = _
      cases h : buildNewMessage inp with
      | none => rw [onSend_build_none uid uname true inp now tg btg bidx s h]
                simp [opWrites, h]
      | some b => rw [onSend_online_outbox uid uname inp now tg btg bidx s b h]
                  simp [opWrites, h]
    | false =>
      show (onSend uid uname false inp now tg btg bidx s).outbox = _
      rw [onSend_offline_outbox]
      simp [opWrites]
  | feed snap now => simp [step, onSnapshotUpdate_outbox, opWrites]
  | react messageId emoji => simp [step, addReaction_outbox, opWrites]
  | load cached => simp [step, loadCachedMessages_outbox, opWrites]

lemma run_outbox (uid uname : String) :
    ∀ (ops : List Op) (s : ChatState),
      (run uid uname s ops).outbox = s.outbox ++ writesOf uid uname ops := by
  intro ops
  induction ops with
  | nil => intro s; simp [run, writesOf]
  | cons op ops ih =>
    intro s
    show (run uid uname (step uid uname s op) ops).outbox = _
    rw [ih, step_outbox]
    simp [writesOf, List.append_assoc]

lemma opWrites_tag_mem (uid uname : String) (op : Op) (w : WriteDoc)
    (hw : w ∈ opWrites uid uname op) : w.tag ∈ opTagList op := by
  cases op with
  | send online inp now tg btg bidx =>
    cases online with
    | true =>
      cases h : buildNewMessage inp with
      | none => simp [opWrites, h] at hw
      | some b =>
        simp only [opWrites, h] at hw
        rcases List.mem_cons.mp hw with h1 | h2
        · subst h1; simp [mkWrite, opTagList]
        · cases hbot : botFollows inp with
          | true => rw [hbot] at h2
                    simp at h2
                    subst h2
                    simp [botWrite, opTagList]
          | false => rw [hbot] at h2; simp at h2
    | false => simp [opWrites] at hw
  | feed snap now => simp [opWrites] at hw
  | react messageId emoji => simp [opWrites] at hw
  | load cached => simp [opWrites] at hw

lemma writesOf_tag_mem (uid uname : String) :
    ∀ (ops : List Op) (w : WriteDoc), w ∈ writesOf uid uname ops →
      ∃ op ∈ ops, w.tag ∈ opTagList op := by
  intro ops
  induction ops with
  | nil => intro w hw; simp [writesOf] at hw
  | cons op ops ih =>
    intro w hw
    rcases List.mem_append.mp hw with h1 | h2
    · exact ⟨op, by simp, opWrites_tag_mem uid uname op w h1⟩
    · rcases ih w h2 with ⟨op2, hmem, htag⟩
      exact ⟨op2, by simp [hmem], htag⟩

/-- C6: a send performed while disconnected stores the new message
locally with status `sent` and issues no remote write; and under any
later event sequence whose send actions use other ghost identities
(connectivity transitions included — events are free to be online),
the offline message's identity is never written to the backend: the
outbox only ever extends by the state-independent writes of later
events. -/
theorem offline_send_local_only (uid uname : String) (s : ChatState) (inp : SendInput)
    (now tg btg bidx : Nat) (ops : List Op) (b : BuiltPayload)
    (hb : buildNewMessage inp = some b)
    (hfresh : ∀ w ∈ s.outbox, w.tag ≠ tg)
    (hlater : ∀ op ∈ ops, tg ∉ opTagList op) :
    (onSend uid uname false inp now tg btg bidx s).outbox = s.outbox ∧
    (onSend uid uname false inp now tg btg bidx s).messages =
      offlineMessage uid uname b now tg :: s.messages ∧
    (offlineMessage uid uname b now tg).status = "sent" ∧
    (offlineMessage uid uname b now tg).tag = some tg ∧
    (run uid uname (onSend uid uname false inp now tg btg bidx s) ops).outbox =
      s.outbox ++ writesOf uid uname ops ∧
    ∀ w ∈ (run uid uname (onSend uid uname false inp now tg btg bidx s) ops).outbox,
      w.tag ≠ tg := by
  have hout : (onSend uid uname false inp now tg btg bidx s).outbox = s.outbox :=
    onSend_offline_outbox uid uname inp now tg btg bidx s
  have hrun : (run uid uname (onSend uid uname false inp now tg btg bidx s) ops).outbox =
      s.outbox ++ writesOf uid uname ops := by
    rw [run_outbox, hout]
  refine ⟨hout, onSend_offline_messages uid uname inp now tg btg bidx s b hb, rfl, rfl,
    hrun, ?_⟩
  intro w hw
  rw [hrun] at hw
  rcases List.mem_append.mp hw with h1 | h2
  · exact hfresh w h1
  · rcases writesOf_tag_mem uid uname ops w h2 with ⟨op, hmem, htag⟩
    intro he
    exact hlater op hmem (he ▸ htag)

/-- Witness for C6: an offline text send followed by a reconnected feed
delivery; the outbox stays free of the offline message's identity. -/
theorem offline_send_local_only_witness :
    buildNewMessage hiSendInput = some hiPayload ∧
    (run "u1" "Ann" (onSend "u1" "Ann" false hiSendInput 1000 5 6 0 emptyCache)
        [Op.feed [wDoc] 1100]).outbox =
      emptyCache.outbox ++ writesOf "u1" "Ann" [Op.feed [wDoc] 1100] :=
  ⟨by decide,
    (offline_send_local_only "u1" "Ann" emptyCache hiSendInput 1000 5 6 0
      [Op.feed [wDoc] 1100] hiPayload (by decide) (by decide) (by decide)).2.2.2.2.1⟩

/-! ### Claim C1: no two cache entries share a logical message -/

/-- Is the event a `send` or a feed delivery? -/
def isSendOrFeed : Op → Bool
  | .send _ _ _ _ _ _ => true
  | .feed _ _ => true
  | _ => false

/-- The ghost identity `t` is unused by the state. -/
def tagFresh (s : ChatState) (t : Nat) : Bool :=
  !(s.messages.any (fun m => m.tag = some t)) && !(s.outbox.any (fun w => w.tag = t))

/-- Well-formed environment: every send action carries globally fresh
ghost identities for the user message and the bot reply, and every
delivered snapshot is honest — it stores pairwise-distinct documents,
each being a write the backend actually received. -/
def validEnv (uid uname : String) : ChatState → List Op → Bool
  | _, [] => true
  | s, op :: ops =>
    (match op with
     | .send _ _ _ tg btg _ => tagFresh s tg && tagFresh s btg && (tg != btg)
     | .feed snap _ =>
       decide ((snap.map SDoc.tag).Nodup) &&
         snap.all (fun d => s.outbox.any (fun w => w.tag = d.tag))
     | _ => true) && validEnv uid uname (step uid uname s op) ops

lemma mapSnap_tags (now : Nat) (snap : List SDoc) :
    (mapSnap now snap).map Msg.tag = (snap.map SDoc.tag).map some := by
  unfold mapSnap
  rw [List.map_map, List.map_map]
  rfl

lemma run_msgTags_nodup (uid uname : String) :
    ∀ (ops : List Op) (s : ChatState),
      ops.all isSendOrFeed = true →
      validEnv uid uname s ops = true →
      ((s.messages.map Msg.tag).Nodup ∧ ∀ m ∈ s.messages, m.tag ≠ none) →
      ((run uid uname s ops).messages.map Msg.tag).Nodup ∧
        ∀ m ∈ (run uid uname s ops).messages, m.tag ≠ none := by
  intro ops
  induction ops with
  | nil => intro s _ _ h; exact h
  | cons op ops ih =>
    intro s hsf hv hinv
    rw [List.all_cons, Bool.and_eq_true] at hsf
    rw [show validEnv uid uname s (op :: ops) = (_ && validEnv uid uname (step uid uname s op) ops) from rfl,
      Bool.and_eq_true] at hv
    refine ih (step uid uname s op) hsf.2 hv.2 ?_
    cases op with
    | send online inp now tg btg bidx =>
      have hfresh : tagFresh s tg = true := by
        have := hv.1
        simp only [Bool.and_eq_true] at this
        exact this.1.1
      cases online with
      | true =>
        simp only [step]
        rw [show (onSend uid uname true inp now tg btg bidx s).messages = s.messages from
          onSend_online_messages uid uname inp now tg btg bidx s]
        exact hinv
      | false =>
        cases hb : buildNewMessage inp with
        | none =>
          simp only [step]
          rw [onSend_build_none uid uname false inp now tg btg bidx s hb]
          exact hinv
        | some b =>
          simp only [step]
          rw [show (onSend uid uname false inp now tg btg bidx s).messages =
            offlineMessage uid uname b now tg :: s.messages from
            onSend_offline_messages uid uname inp now tg btg bidx s b hb]
          constructor
          · rw [List.map_cons]
            refine List.Nodup.cons ?_ hinv.1
            intro hmem
            rcases List.mem_map.mp hmem with ⟨m, hm, htag⟩
            have h1 : s.messages.any (fun m => m.tag = some tg) = true := by
              rw [List.any_eq_true]
              exact ⟨m, hm, by simp [htag, offlineMessage]⟩
            unfold tagFresh at hfresh
            rw [Bool.and_eq_true] at hfresh
            rw [h1] at hfresh
            simp at hfresh
          · intro m hm
            rcases List.mem_cons.mp hm with h1 | h2
            · subst h1; simp [offlineMessage]
            · exact hinv.2 m h2
    | feed snap now =>
      have hnd : ((snap.map SDoc.tag).Nodup) := by
        have := hv.1
        simp only [Bool.and_eq_true] at this
        exact of_decide_eq_true this.1
      simp only [step]
      rw [show (onSnapshotUpdate snap now s).messages = mapSnap now snap from rfl]
      constructor
      · show ((mapSnap now snap).map Msg.tag).Nodup
        rw [mapSnap_tags]
        exact hnd.map (Option.some_injective Nat)
      · intro m hm
        rcases List.mem_map.mp hm with ⟨d, _, hd⟩
        subst hd
        simp [mapDoc]
    | react messageId emoji => simp [isSendOrFeed] at hsf
    | load cached => simp [isSendOrFeed] at hsf

/-- C1: over every interleaving of send actions and feed deliveries
from the empty cache (sends with fresh logical identities, snapshots
honest), no two entries of `orderedMessages` ever represent the same
logical message, and every entry represents some logical message — in
particular a locally authored message and its server-confirmed copy
never coexist under the temporary local id and the server id. -/
theorem no_duplicate_logical_message (uid uname : String) (ops : List Op)
    (hsf : ops.all isSendOrFeed = true)
    (hv : validEnv uid uname emptyCache ops = true) :
    ((run uid uname emptyCache ops).messages.map Msg.tag).Nodup ∧
    ∀ m ∈ (run uid uname emptyCache ops).messages, m.tag ≠ none :=
  run_msgTags_nodup uid uname ops emptyCache hsf hv (by simp [emptyCache])

/-- The server copy of the bot reply written after the witness's text
send (it stores `botWrite 1 0`). -/
def botDoc : SDoc :=
  { id := "srv2", text := some "That\x27s interesting! Tell me more."
  , image := none, location := none, createdAt := some 160
  , user := some { idPrimary := some "chatbot", idAlt := none
                 , name := some "Chat Bot", avatar := none }
  , status := some "sent", tag := 1 }

/-- Scenario-B shaped run: an online text send, then the feed delivers
the stored copies of both writes. -/
def opsScenarioB : List Op :=
  [Op.send true hiSendInput 1000 0 1 0, Op.feed [wDoc, botDoc] 1100]

/-- Witness for C1 on the scenario-B run. -/
theorem no_duplicate_logical_message_witness :
    opsScenarioB.all isSendOrFeed = true ∧
    validEnv "u1" "Ann" emptyCache opsScenarioB = true ∧
    ((run "u1" "Ann" emptyCache opsScenarioB).messages.map Msg.tag).Nodup :=
  ⟨by decide, by decide,
    (no_duplicate_logical_message "u1" "Ann" opsScenarioB (by decide) (by decide)).1⟩

/-! ### Claim C8: exactly one payload kind per message -/

/-- How many of the three payload fields are populated (in the
JavaScript-truthiness sense the renderer and the mapper use: an absent
or empty string is not populated; a location object always is). -/
def payloadCount3 (t i : Option String) (l : Option Loc) : Nat :=
  (if truthyS t then 1 else 0) + (if truthyS i then 1 else 0) +
    (if l.isSome then 1 else 0)

/-- Populated payload fields of a cached message. -/
def msgPayloadCount (m : Msg) : Nat := payloadCount3 m.text m.image m.location

/-- Populated payload fields of a written document. -/
def writePayloadCount (w : WriteDoc) : Nat := payloadCount3 w.text w.image w.location

/-- The snapshot document `d` stores the payload of the write `w`. -/
def DocReflects (d : SDoc) (w : WriteDoc) : Prop :=
  d.text = w.text ∧ d.image = w.image ∧ d.location = w.location

instance (d : SDoc) (w : WriteDoc) : Decidable (DocReflects d w) := by
  unfold DocReflects
  infer_instance

/-- Closed-world environment for C8: every delivered snapshot document
stores some write the app actually issued, and any cache seeded from
durable storage was persisted with well-formed payloads. -/
def validC8 (uid uname : String) : ChatState → List Op → Bool
  | _, [] => true
  | s, op :: ops =>
    (match op with
     | .feed snap _ => snap.all (fun d => s.outbox.any (fun w => decide (DocReflects d w)))
     | .load cached =>
       (match cached with
        | none => true
        | some pr => pr.messages.all (fun m => msgPayloadCount m == 1))
     | _ => true) && validC8 uid uname (step uid uname s op) ops

lemma botReplyText_ne_empty (bidx : Nat) : botReplyText bidx ≠ "" := by
  have h : bidx % AUTO_REPLIES.length < AUTO_REPLIES.length :=
    Nat.mod_lt _ (by decide)
  have h2 : botReplyText bidx ∈ AUTO_REPLIES := by
    unfold botReplyText
    rw [List.getD_eq_getElem _ _ h]
    exact List.getElem_mem _
  have h3 : ∀ x ∈ AUTO_REPLIES, x ≠ "" := by decide
  exact h3 _ h2

lemma truthyS_none : truthyS none = false := rfl

lemma truthyS_some (s : String) : truthyS (some s) = (s != "") := rfl

lemma buildNewMessage_count (inp : SendInput) (b : BuiltPayload)
    (h : buildNewMessage inp = some b) :
    payloadCount3 b.text b.image b.location = 1 := by
  unfold buildNewMessage at h
  split at h
  · rename_i hloc
    simp only [Option.some.injEq] at h
    subst h
    simp [payloadCount3, truthyS_none, hloc]
  · split at h
    · rename_i himg
      simp only [Option.some.injEq] at h
      subst h
      simp [payloadCount3, truthyS_none, himg]
    · split at h
      · exact absurd h (by simp)
      · rename_i htxt
        simp only [Option.some.injEq] at h
        subst h
        simp [payloadCount3, truthyS_none, truthyS_some, htxt]

lemma mkWrite_count (uid uname : String) (b : BuiltPayload) (tg : Nat) (inp : SendInput)
    (h : buildNewMessage inp = some b) :
    writePayloadCount (mkWrite uid uname b tg) = 1 :=
  buildNewMessage_count inp b h

lemma botWrite_count (btg bidx : Nat) : writePayloadCount (botWrite btg bidx) = 1 := by
  unfold writePayloadCount botWrite payloadCount3
  simp [truthyS, botReplyText_ne_empty bidx]

lemma offlineMessage_count (uid uname : String) (b : BuiltPayload) (now tg : Nat)
    (inp : SendInput) (h : buildNewMessage inp = some b) :
    msgPayloadCount (offlineMessage uid uname b now tg) = 1 :=
  buildNewMessage_count inp b h

lemma truthyS_jsOrStr (x : Option String) : truthyS (some (jsOrStr x "")) = truthyS x := by
  cases x with
  | none => rfl
  | some s =>
    by_cases h : s = ""
    · subst h; rfl
    · simp [jsOrStr, truthyS, h]

lemma truthyS_jsOrNull (x : Option String) : truthyS (jsOrNull x) = truthyS x := by
  cases x with
  | none => rfl
  | some s =>
    by_cases h : s = ""
    · subst h; rfl
    · simp [jsOrNull, truthyS, h]

lemma mapDoc_count (now : Nat) (d : SDoc) (w : WriteDoc) (hr : DocReflects d w) :
    msgPayloadCount (mapDoc now d) = writePayloadCount w := by
  unfold msgPayloadCount writePayloadCount mapDoc payloadCount3
  rcases hr with ⟨h1, h2, h3⟩
  simp only [truthyS_jsOrStr, truthyS_jsOrNull, h1, h2, h3]

lemma run_payload_invariant (uid uname : String) :
    ∀ (ops : List Op) (s : ChatState),
      validC8 uid uname s ops = true →
      ((∀ m ∈ s.messages, msgPayloadCount m = 1) ∧
        ∀ w ∈ s.outbox, writePayloadCount w = 1) →
      (∀ m ∈ (run uid uname s ops).messages, msgPayloadCount m = 1) ∧
        ∀ w ∈ (run uid uname s ops).outbox, writePayloadCount w = 1 := by
  intro ops
  induction ops with
  | nil => intro s _ h; exact h
  | cons op ops ih =>
    intro s hv hinv
    rw [show validC8 uid uname s (op :: ops) =
      (_ && validC8 uid uname (step uid uname s op) ops) from rfl,
      Bool.and_eq_true] at hv
    refine ih (step uid uname s op) hv.2 ?_
    cases op with
    | send online inp now tg btg bidx =>
      cases hb : buildNewMessage inp with
      | none =>
        simp only [step]
        rw [onSend_build_none uid uname online inp now tg btg bidx s hb]
        exact hinv
      | some b =>
        cases online with
        | true =>
          simp only [step]
          constructor
          · rw [show (onSend uid uname true inp now tg btg bidx s).messages = s.messages from
              onSend_online_messages uid uname inp now tg btg bidx s]
            exact hinv.1
          · rw [onSend_online_outbox uid uname inp now tg btg bidx s b hb]
            intro w hw
            rcases List.mem_append.mp hw with h1 | h2
            · exact hinv.2 w h1
            · rcases List.mem_cons.mp h2 with h3 | h4
              · subst h3; exact mkWrite_count uid uname b tg inp hb
              · cases hbot : botFollows inp with
                | true =>
                  rw [hbot] at h4
                  simp at h4
                  subst h4
                  exact botWrite_count btg bidx
                | false => rw [hbot] at h4; simp at h4
        | false =>
          simp only [step]
          constructor
          · rw [show (onSend uid uname false inp now tg btg bidx s).messages =
              offlineMessage uid uname b now tg :: s.messages from
              onSend_offline_messages uid uname inp now tg btg bidx s b hb]
            intro m hm
            rcases List.mem_cons.mp hm with h1 | h2
            · subst h1; exact offlineMessage_count uid uname b now tg inp hb
            · exact hinv.1 m h2
          · rw [onSend_offline_outbox]
            exact hinv.2
    | feed snap now =>
      simp only [step]
      constructor
      · rw [show (onSnapshotUpdate snap now s).messages = mapSnap now snap from rfl]
        intro m hm
        rcases List.mem_map.mp hm with ⟨d, hd, hmap⟩
        subst hmap
        have hall := hv.1
        rw [List.all_eq_true] at hall
        have := hall d hd
        rw [List.any_eq_true] at this
        rcases this with ⟨w, hw, hrefl⟩
        rw [mapDoc_count now d w (of_decide_eq_true hrefl)]
        exact hinv.2 w hw
      · rw [onSnapshotUpdate_outbox]
        exact hinv.2
    | react messageId emoji =>
      simp only [step]
      constructor
      · intro m hm
        unfold addReaction at hm
        simp only at hm
        rcases List.mem_map.mp hm with ⟨m0, hm0, hmap⟩
        have : msgPayloadCount m = msgPayloadCount m0 := by
          rw [← hmap]
          by_cases h : m0.id = messageId <;> simp [h, msgPayloadCount]
        rw [this]
        exact hinv.1 m0 hm0
      · rw [addReaction_outbox]
        exact hinv.2
    | load cached =>
      cases cached with
      | none =>
        simp only [step, loadCachedMessages]
        exact hinv
      | some pr =>
        simp only [step, loadCachedMessages]
        constructor
        · intro m hm
          have hall := hv.1
          rw [List.all_eq_true] at hall
          have := hall m hm
          rwa [beq_iff_eq] at this
        · exact hinv.2

/-- C8: in every run from the empty cache in which delivered snapshots
store only documents the app wrote and any durable seed was persisted
well-formed, every cached message and every document written to the
remote feed carries exactly one populated payload kind among
text/image/location — never zero, never two. -/
theorem exactly_one_payload_kind (uid uname : String) (ops : List Op)
    (hv : validC8 uid uname emptyCache ops = true) :
    (∀ m ∈ (run uid uname emptyCache ops).messages, msgPayloadCount m = 1) ∧
    ∀ w ∈ (run uid uname emptyCache ops).outbox, writePayloadCount w = 1 :=
  run_payload_invariant uid uname ops emptyCache hv (by simp [emptyCache])

/-- Witness for C8 on the scenario-B run. -/
theorem exactly_one_payload_kind_witness :
    validC8 "u1" "Ann" emptyCache opsScenarioB = true ∧
    ∀ m ∈ (run "u1" "Ann" emptyCache opsScenarioB).messages, msgPayloadCount m = 1 :=
  ⟨by decide, (exactly_one_payload_kind "u1" "Ann" opsScenarioB (by decide)).1⟩

/-! ### Claim C5: the cache stays sorted by createdAt descending -/

/-- Sorted newest-first by `createdAt` (non-strict, so ties are
allowed). -/
def sortedDesc (l : List Msg) : Prop :=
  List.Chain' (fun a b => b.createdAt ≤ a.createdAt) l

/-- Executable check of `sortedDesc`. -/
def msgsSortedB : List Msg → Bool
  | [] => true
  | [_] => true
  | a :: b :: t => decide (b.createdAt ≤ a.createdAt) && msgsSortedB (b :: t)

/-- Executable check that a snapshot is delivered newest-first, as the
`orderBy('createdAt','desc')` query guarantees. -/
def docsSortedB : List SDoc → Bool
  | [] => true
  | [_] => true
  | a :: b :: t =>
    decide (b.createdAt.getD 0 ≤ a.createdAt.getD 0) && docsSortedB (b :: t)

/-- Chronology conditions for one event: an offline send reads a local
clock not behind any cached timestamp; a feed delivery carries resolved
backend timestamps in the query's descending order; a durable seed was
persisted sorted. -/
def chronoOk (s : ChatState) : Op → Bool
  | .send online _ now _ _ _ => online || s.messages.all (fun m => m.createdAt ≤ now)
  | .feed snap _ => snap.all (fun d => d.createdAt.isSome) && docsSortedB snap
  | .react _ _ => true
  | .load cached =>
    match cached with
    | none => true
    | some pr => msgsSortedB pr.messages

/-- Chronology conditions along a whole run. -/
def chronoRun (uid uname : String) : ChatState → List Op → Bool
  | _, [] => true
  | s, op :: ops => chronoOk s op && chronoRun uid uname (step uid uname s op) ops

lemma msgsSortedB_iff : ∀ (l : List Msg), msgsSortedB l = true ↔ sortedDesc l := by
  intro l
  induction l with
  | nil => simp [msgsSortedB, sortedDesc]
  | cons a t ih =>
    cases t with
    | nil => simp [msgsSortedB, sortedDesc]
    | cons b t2 =>
      rw [show msgsSortedB (a :: b :: t2) =
        (decide (b.createdAt ≤ a.createdAt) && msgsSortedB (b :: t2)) from rfl]
      rw [Bool.and_eq_true, decide_eq_true_eq, ih]
      unfold sortedDesc
      rw [List.chain'_cons]

lemma mapSnap_sorted (now : Nat) :
    ∀ (snap : List SDoc), (∀ d ∈ snap, d.createdAt.isSome) →
      docsSortedB snap = true → sortedDesc (mapSnap now snap) := by
  intro snap
  induction snap with
  | nil => intro _ _; simp [mapSnap, sortedDesc]
  | cons a t ih =>
    cases t with
    | nil => intro _ _; simp [mapSnap, sortedDesc, List.chain'_singleton]
    | cons b t2 =>
      intro hs hd
      rw [show docsSortedB (a :: b :: t2) =
        (decide (b.createdAt.getD 0 ≤ a.createdAt.getD 0) && docsSortedB (b :: t2)) from rfl,
        Bool.and_eq_true, decide_eq_true_eq] at hd
      have hsorted : sortedDesc (mapSnap now (b :: t2)) :=
        ih (fun d hdm => hs d (by simp [hdm])) hd.2
      show sortedDesc (mapDoc now a :: mapDoc now b :: mapSnap now t2)
      unfold sortedDesc
      rw [List.chain'_cons]
      constructor
      · show (mapDoc now b).createdAt ≤ (mapDoc now a).createdAt
        have ha : a.createdAt.isSome := hs a (by simp)
        have hb : b.createdAt.isSome := hs b (by simp)
        rcases Option.isSome_iff_exists.mp ha with ⟨x, hx⟩
        rcases Option.isSome_iff_exists.mp hb with ⟨y, hy⟩
        show (mapDoc now b).createdAt ≤ (mapDoc now a).createdAt
        unfold mapDoc
        simp only [hx, hy, Option.getD_some]
        have := hd.1
        rw [hx, hy] at this
        simpa using this
      · exact hsorted

lemma addReaction_map_eq {α : Type} (uid messageId emoji : String) (s : ChatState)
    (f : Msg → α) (hf : ∀ (m : Msg) (r : Option (List ReactionEntry)),
      f { m with reactions := r } = f m) :
    (addReaction uid messageId emoji s).messages.map f = s.messages.map f := by
  unfold addReaction
  simp only [List.map_map]
  apply List.map_congr_left
  intro m _
  by_cases h : m.id = messageId
  · show f (if m.id = messageId then _ else m) = f m
    rw [if_pos h]
    exact hf m _
  · show f (if m.id = messageId then _ else m) = f m
    rw [if_neg h]

lemma sortedDesc_iff_map (l : List Msg) :
    sortedDesc l ↔ List.Chain' (fun a b : Nat => b ≤ a) (l.map Msg.createdAt) := by
  unfold sortedDesc
  rw [List.chain'_map]

lemma run_sorted_invariant (uid uname : String) :
    ∀ (ops : List Op) (s : ChatState),
      chronoRun uid uname s ops = true → sortedDesc s.messages →
      sortedDesc (run uid uname s ops).messages := by
  intro ops
  induction ops with
  | nil => intro s _ h; exact h
  | cons op ops ih =>
    intro s hc hs
    rw [show chronoRun uid uname s (op :: ops) =
      (chronoOk s op && chronoRun uid uname (step uid uname s op) ops) from rfl,
      Bool.and_eq_true] at hc
    refine ih (step uid uname s op) hc.2 ?_
    cases op with
    | send online inp now tg btg bidx =>
      cases hb : buildNewMessage inp with
      | none =>
        simp only [step]
        rw [onSend_build_none uid uname online inp now tg btg bidx s hb]
        exact hs
      | some b =>
        cases online with
        | true =>
          simp only [step]
          unfold sortedDesc
          rw [show (onSend uid uname true inp now tg btg bidx s).messages = s.messages from
            onSend_online_messages uid uname inp now tg btg bidx s]
          exact hs
        | false =>
          simp only [step]
          unfold sortedDesc
          rw [show (onSend uid uname false inp now tg btg bidx s).messages =
            offlineMessage uid uname b now tg :: s.messages from
            onSend_offline_messages uid uname inp now tg btg bidx s b hb]
          have hall : ∀ m ∈ s.messages, m.createdAt ≤ now := by
            have := hc.1
            rw [show chronoOk s (Op.send false inp now tg btg bidx) =
              (false || s.messages.all (fun m => m.createdAt ≤ now)) from rfl,
              Bool.false_or, List.all_eq_true] at this
            intro m hm
            exact of_decide_eq_true (this m hm)
          cases hm : s.messages with
          | nil => simp
          | cons m t =>
            rw [List.chain'_cons]
            constructor
            · show m.createdAt ≤ (offlineMessage uid uname b now tg).createdAt
              have : m.createdAt ≤ now := hall m (by rw [hm]; simp)
              exact this
            · rw [hm] at hs
              exact hs
    | feed snap now =>
      simp only [step]
      have h1 : snap.all (fun d => d.createdAt.isSome) = true := by
        have := hc.1
        rw [show chronoOk s (Op.feed snap now) =
          (snap.all (fun d => d.createdAt.isSome) && docsSortedB snap) from rfl,
          Bool.and_eq_true] at this
        exact this.1
      have h2 : docsSortedB snap = true := by
        have := hc.1
        rw [show chronoOk s (Op.feed snap now) =
          (snap.all (fun d => d.createdAt.isSome) && docsSortedB snap) from rfl,
          Bool.and_eq_true] at this
        exact this.2
      rw [List.all_eq_true] at h1
      exact mapSnap_sorted now snap (fun d hd => h1 d hd) h2
    | react messageId emoji =>
      simp only [step]
      rw [sortedDesc_iff_map]
      rw [addReaction_map_eq uid messageId emoji s Msg.createdAt (fun m r => rfl)]
      rw [← sortedDesc_iff_map]
      exact hs
    | load cached =>
      cases cached with
      | none => simp only [step, loadCachedMessages]; exact hs
      | some pr =>
        simp only [step, loadCachedMessages]
        have := hc.1
        rw [show chronoOk s (Op.load (some pr)) = msgsSortedB pr.messages from rfl,
          msgsSortedB_iff] at this
        exact this

/-- C5: (a) after every chronological sequence of initialize, send,
feed-delivery and addReaction events, `orderedMessages` is sorted by
`createdAt` descending; and entries with equal `createdAt` keep their
original relative insertion order because no event ever reorders the
entries already present: (b) an online send leaves the list unchanged,
(c) an offline send only prepends, and (d) `addReaction` keeps every
entry at its position with its id and timestamp (a feed delivery or a
durable-storage load replaces the whole list, establishing the
delivered order as the insertion order). -/
theorem cache_sorted_desc_and_stable :
    (∀ (uid uname : String) (conn : Bool) (cached : Option Persisted) (ops : List Op),
      msgsSortedB (initialState conn cached).messages = true →
      chronoRun uid uname (initialState conn cached) ops = true →
      sortedDesc (run uid uname (initialState conn cached) ops).messages) ∧
    (∀ (uid uname : String) (inp : SendInput) (now tg btg bidx : Nat) (s : ChatState),
      (onSend uid uname true inp now tg btg bidx s).messages = s.messages) ∧
    (∀ (uid uname : String) (inp : SendInput) (now tg btg bidx : Nat) (s : ChatState),
      ∃ pre : List Msg,
        (onSend uid uname false inp now tg btg bidx s).messages = pre ++ s.messages) ∧
    (∀ (uid messageId emoji : String) (s : ChatState),
      (addReaction uid messageId emoji s).messages.map (fun m => (m.id, m.createdAt)) =
        s.messages.map (fun m => (m.id, m.createdAt))) := by
  refine ⟨?_, ?_, ?_, ?_⟩
  · intro uid uname conn cached ops hinit hc
    exact run_sorted_invariant uid uname ops (initialState conn cached) hc
      ((msgsSortedB_iff _).mp hinit)
  · intro uid uname inp now tg btg bidx s
    exact onSend_online_messages uid uname inp now tg btg bidx s
  · intro uid uname inp now tg btg bidx s
    cases hb : buildNewMessage inp with
    | none =>
      refine ⟨[], ?_⟩
      rw [onSend_build_none uid uname false inp now tg btg bidx s hb]
      rfl
    | some b =>
      refine ⟨[offlineMessage uid uname b now tg], ?_⟩
      rw [onSend_offline_messages uid uname inp now tg btg bidx s b hb]
      rfl
  · intro uid messageId emoji s
    exact addReaction_map_eq uid messageId emoji s (fun m => (m.id, m.createdAt))
      (fun m r => rfl)

/-- Witness for C5's sortedness conjunct: an offline startup followed
by an offline send and a reconnected feed delivery. -/
theorem cache_sorted_desc_and_stable_witness :
    msgsSortedB (initialState false none).messages = true ∧
    chronoRun "u1" "Ann" (initialState false none)
      [Op.send false hiSendInput 1000 9 10 0, Op.feed [wDoc] 1100] = true ∧
    sortedDesc (run "u1" "Ann" (initialState false none)
      [Op.send false hiSendInput 1000 9 10 0, Op.feed [wDoc] 1100]).messages :=
  ⟨by decide, by decide,
    cache_sorted_desc_and_stable.1 "u1" "Ann" false none
      [Op.send false hiSendInput 1000 9 10 0, Op.feed [wDoc] 1100]
      (by decide) (by decide)⟩

end ChatApp
